import Mathlib

/-!
Verification of the timed game state machine in `src/game.js` of the
tetris repository.  The Game class is a state machine controlling a
tetrion (board engine); `tick` advances it by a time delta and an
optional user command.  The board engine (`Tetrion`), the progress
tracker (`Progress`) and the sound player are collaborators that live
outside the verified source file, so they are abstracted as parameters
(`Ops`) following the collaborator contracts stated in the spec.
Times and timers are modelled as integers (milliseconds); the
floating-point gravity-delay formula is modelled over the reals.
-/

namespace Tetris

/-- The four phases of the game, from the string `state` field
(`'spawning' | 'idle' | 'locking' | 'finished'`). -/
inductive GState where
  | spawning
  | idle
  | locking
  | finished
deriving DecidableEq, Repr

/-- The closed set of user command identifiers dispatched by `tick`
(the methods the board engine exposes to the command branch). -/
inductive Command where
  | moveLeft
  | moveRight
  | moveDown
  | softDrop
  | rotateLeft
  | rotateRight
  | firmDrop
  | hardDrop
  | hold
deriving DecidableEq, Repr

/-- Modelled from the spec: the command set is closed; these are the
nine CommandId strings the board engine accepts.  An identifier outside
this set has no corresponding engine method (`parseCommand` returns
`none`, and the dynamic dispatch `this.tetrion[command](...)` aborts
with a TypeError). -/
def parseCommand (s : String) : Option Command :=
  if s = "moveLeft" then some .moveLeft
  else if s = "moveRight" then some .moveRight
  else if s = "moveDown" then some .moveDown
  else if s = "softDrop" then some .softDrop
  else if s = "rotateLeft" then some .rotateLeft
  else if s = "rotateRight" then some .rotateRight
  else if s = "firmDrop" then some .firmDrop
  else if s = "hardDrop" then some .hardDrop
  else if s = "hold" then some .hold
  else none

/-- JavaScript truthiness of the `command` argument: `null`/`undefined`
and the empty string are falsy, every other string is truthy. -/
def truthy : Option String → Bool
  | none => false
  | some s => !(s = "")

/-- The sound keys passed to `playSound`: a command name, the literal
`'lock'`, or the literal `'gameOver'`. -/
inductive SKey where
  | cmd (c : Command)
  | lockKey
  | gameOver
deriving DecidableEq, Repr

/-- The sound cues handed to the sound player's `play`. -/
inductive Cue where
  | move
  | rotate
  | drop
  | lock
  | hold
  | clearLine
  | levelUp
  | gameOver
deriving DecidableEq, Repr

/-- The `switch (command)` table at the bottom of `playSound`
(src/game.js lines 184-202). -/
def cueFor : SKey → Cue
  | .cmd .moveLeft => .move
  | .cmd .moveRight => .move
  | .cmd .moveDown => .move
  | .cmd .softDrop => .move
  | .cmd .rotateLeft => .rotate
  | .cmd .rotateRight => .rotate
  | .cmd .firmDrop => .drop
  | .cmd .hardDrop => .drop
  | .cmd .hold => .hold
  | .lockKey => .lock
  | .gameOver => .gameOver

/-- `playSound (command, clearLine = false, levelUp = false)`
(src/game.js lines 176-204): muted suppresses everything; otherwise
level-up beats clear-line beats the per-command cue.  Returns the cue
emitted, if any. -/
def playSound (muted : Bool) (key : SKey) (clearLine levelUp : Bool) : Option Cue :=
  if muted then none
  else if levelUp then some .levelUp
  else if clearLine then some .clearLine
  else some (cueFor key)

/-- `SPAWN_DELAY` (src/game.js line 6). -/
def spawnDelay : ℤ := 100

/-- `LOCK_DELAY` (src/game.js line 7). -/
def lockDelay : ℤ := 1000

/-- The `gravityDelay` getter (src/game.js lines 70-72):
`Math.round((-333.54 * Math.log(this.level)) + 999.98)`, with the
floating-point arithmetic modelled over the reals. -/
noncomputable def gravityDelay (level : ℕ) : ℤ :=
  round ((-333.54) * Real.log level + 999.98)

/-- Collaborator contracts consumed by the state machine: the board
engine (`spawn`, `moveDown`, `lock`, per-command dispatch, and the
`fallingPiece` / `canMoveDown` board properties) and the progress
tracker (`add`, `level`).  The `changed` booleans replace the
reference-identity comparison (`result.tetrion === this.tetrion`) used
in the source, and `rlines` reads `reward.lines`.  `T` is the tetrion
snapshot type, `P` the progress snapshot type, `R` the reward type. -/
structure Ops (T P R : Type) where
  spawn : T → T × Bool
  moveDown : T → T × R × Bool
  lock : T → ℕ → T × R
  dispatch : Command → T → ℕ → T × R × Bool
  fallingPiece : T → Bool
  canMoveDown : T → Bool
  rlines : R → ℕ
  padd : P → R → P
  plevel : P → ℕ

/-- The game snapshot: the fields set by the `Game` constructor and
copied by every mutator (src/game.js lines 14-25). -/
structure Game (T P R : Type) where
  time : ℤ
  state : GState
  paused : Bool
  muted : Bool
  tetrion : T
  spawnTimer : ℤ
  lockTimer : ℤ
  gravityTimer : ℤ
  progress : P
  reward : Option R

/-- The `Game` constructor (src/game.js lines 14-25); the fresh
`Tetrion` and `Progress` collaborator snapshots are parameters. -/
def Game.init {T P R : Type} (muted : Bool) (t0 : T) (p0 : P) : Game T P R :=
  { time := 0
    state := .spawning
    paused := false
    muted := muted
    tetrion := t0
    spawnTimer := 0
    lockTimer := 0
    gravityTimer := 0
    progress := p0
    reward := none }

open Classical in
/-- `tick (delta, command)` (src/game.js lines 81-158).  Returns the new
snapshot together with the cue emitted by the branch that fired (if
any); an unrecognized command identifier reaching the dynamic dispatch
aborts the call (`Except.error`), as the lookup
`this.tetrion[command]` yields `undefined` and calling it throws. -/
noncomputable def Game.tick {T P R : Type} (ops : Ops T P R) (g : Game T P R)
    (delta : ℤ) (command : Option String) :
    Except String (Game T P R × Option Cue) :=
  if g.paused then .ok (g, none)
  else
    let time := g.time + delta
    if g.state = .spawning ∧ time - g.spawnTimer ≥ spawnDelay then
      let r := ops.spawn g.tetrion
      if r.2 = false then
        .ok ({ g with time := time, tetrion := r.1, state := .finished }, playSound g.muted .gameOver false false)
      else
        .ok ({ g with time := time, tetrion := r.1, state := .idle, gravityTimer := time }, none)
    else if g.state = .idle ∧ time - g.gravityTimer ≥ gravityDelay (ops.plevel g.progress) then
      let r := ops.moveDown g.tetrion
      let cue := playSound g.muted (.cmd .moveDown) false false
      if r.2.2 = false then
        .ok ({ g with time := time, tetrion := r.1, reward := some r.2.1, state := .locking, gravityTimer := time, lockTimer := time }, cue)
      else
        .ok ({ g with time := time, tetrion := r.1, reward := some r.2.1, state := .idle, gravityTimer := time }, cue)
    else if g.state = .locking ∧ time - g.lockTimer ≥ lockDelay then
      let r := ops.lock g.tetrion (ops.plevel g.progress)
      let progress := ops.padd g.progress r.2
      let cue := playSound g.muted .lockKey (ops.rlines r.2 > 0) (ops.plevel progress > ops.plevel g.progress)
      .ok ({ g with time := time, tetrion := r.1, reward := some r.2, progress := progress, state := .spawning, spawnTimer := time }, cue)
    else if (g.state = .idle ∨ g.state = .locking) ∧ truthy command = true then
      match command with
      | none => .ok ({ g with time := time }, none)
      | some s =>
        match parseCommand s with
        | none => .error "TypeError: unrecognized command"
        | some c =>
          let r := ops.dispatch c g.tetrion (ops.plevel g.progress)
          let progress := ops.padd g.progress r.2.1
          let cue := if r.2.2 then playSound g.muted (.cmd c) (ops.rlines r.2.1 > 0) (ops.plevel progress > ops.plevel g.progress) else none
          if ops.fallingPiece r.1 = false then
            .ok ({ g with time := time, tetrion := r.1, reward := some r.2.1, progress := progress, state := .spawning, spawnTimer := time }, cue)
          else if g.state = .locking ∧ ops.canMoveDown r.1 = true then
            .ok ({ g with time := time, tetrion := r.1, reward := some r.2.1, progress := progress, state := .idle, gravityTimer := time }, cue)
          else
            .ok ({ g with time := time, tetrion := r.1, reward := some r.2.1, progress := progress }, cue)
    else
      .ok ({ g with time := time }, none)

/-- `pause ()` (src/game.js lines 163-165). -/
def Game.pause {T P R : Type} (g : Game T P R) : Game T P R :=
  { g with paused := !g.paused }

/-- `mute ()` (src/game.js lines 172-174). -/
def Game.mute {T P R : Type} (g : Game T P R) : Game T P R :=
  { g with muted := !g.muted }

/-! ## Numeric facts about `gravityDelay` -/

theorem gravityDelay_one : gravityDelay 1 = 1000 := by
  unfold gravityDelay
  rw [show ((1 : ℕ) : ℝ) = 1 by norm_num, Real.log_one, round_eq, Int.floor_eq_iff]
  norm_num

theorem gravityDelay_two : gravityDelay 2 = 769 := by
  have h1 := Real.log_two_gt_d9
  have h2 := Real.log_two_lt_d9
  unfold gravityDelay
  rw [show ((2 : ℕ) : ℝ) = 2 by norm_num, round_eq, Int.floor_eq_iff]
  norm_num
  constructor <;> nlinarith

theorem gravityDelay_antitone {m n : ℕ} (h1 : 1 ≤ m) (hmn : m ≤ n) :
    gravityDelay n ≤ gravityDelay m := by
  unfold gravityDelay
  rw [round_eq, round_eq]
  apply Int.floor_le_floor
  have hm : (0 : ℝ) < (m : ℝ) := by exact_mod_cast Nat.lt_of_lt_of_le Nat.zero_lt_one h1
  have hlog : Real.log m ≤ Real.log n := Real.log_le_log hm (by exact_mod_cast hmn)
  nlinarith

theorem gravityDelay_pow20 : gravityDelay 1048576 = -3624 := by
  have h1 := Real.log_two_gt_d9
  have h2 := Real.log_two_lt_d9
  have hcast : ((1048576 : ℕ) : ℝ) = 2 ^ (20 : ℕ) := by norm_num
  unfold gravityDelay
  rw [hcast, Real.log_pow, round_eq, Int.floor_eq_iff]
  push_cast
  constructor <;> nlinarith

theorem gravityDelay_pow20_succ : gravityDelay 1048577 = -3624 := by
  have h1 := Real.log_two_gt_d9
  have h2 := Real.log_two_lt_d9
  have hlow : (20 : ℝ) * Real.log 2 < Real.log 1048577 := by
    have := Real.log_lt_log (x := 2 ^ (20 : ℕ)) (by positivity) (by norm_num : (2 : ℝ) ^ (20 : ℕ) < 1048577)
    rwa [Real.log_pow] at this
  have hhigh : Real.log 1048577 ≤ 20 * Real.log 2 + 1048577 / 1048576 - 1 := by
    have hdiv : Real.log ((1048577 : ℝ) / 1048576) = Real.log 1048577 - Real.log 1048576 :=
      Real.log_div (by norm_num) (by norm_num)
    have hub : Real.log ((1048577 : ℝ) / 1048576) ≤ (1048577 : ℝ) / 1048576 - 1 :=
      Real.log_le_sub_one_of_pos (by norm_num)
    have hbig : Real.log (1048576 : ℝ) = 20 * Real.log 2 := by
      rw [show (1048576 : ℝ) = 2 ^ (20 : ℕ) by norm_num, Real.log_pow]
      norm_num
    rw [hdiv, hbig] at hub
    linarith
  have hcast : ((1048577 : ℕ) : ℝ) = (1048577 : ℝ) := by norm_num
  unfold gravityDelay
  rw [hcast, round_eq, Int.floor_eq_iff]
  push_cast
  constructor <;> nlinarith

/-! ## Concrete instantiations used to witness the theorems -/

/-- A family of degenerate collaborator instantiations over `Unit`
snapshots: `sp` is the spawn `changed` flag, `md` the move-down
`changed` flag, `ch` the command-dispatch `changed` flag, `fp` whether
the board has a falling piece, `cm` whether it can move down; the
progress tracker sits at level 1 with no cleared lines. -/
def mkOps (sp md ch fp cm : Bool) : Ops Unit Unit Unit :=
  { spawn := fun _ => ((), sp)
    moveDown := fun _ => ((), (), md)
    lock := fun _ _ => ((), ())
    dispatch := fun _ _ _ => ((), (), ch)
    fallingPiece := fun _ => fp
    canMoveDown := fun _ => cm
    rlines := fun _ => 0
    padd := fun _ _ => ()
    plevel := fun _ => 1 }

/-! ## Claim theorems -/

/-- C5: for every snapshot with `paused == true`, `tick(delta, command)`
returns a snapshot equal in every field to the input — no time advance,
no board or progress change, and no cue is emitted — for any `delta`
and any `command`. -/
theorem C5_paused_tick_is_identity {T P R : Type} (ops : Ops T P R) (g : Game T P R)
    (delta : ℤ) (command : Option String) (hp : g.paused = true) :
    g.tick ops delta command = .ok (g, none) := by
  unfold Game.tick
  simp [hp]

theorem C5_witness :
    Game.tick (mkOps true true true true true) (Game.pause (Game.init false () ())) 5 (some "moveLeft") =
      .ok (Game.pause (Game.init false () ()), none) :=
  C5_paused_tick_is_identity (mkOps true true true true true) _ 5 (some "moveLeft") rfl

/-- C1: from a non-paused Spawning snapshot with
`time + delta - spawnTimer >= 100` the tick asks the engine to spawn:
a failed spawn (`changed = false`) yields state Finished with a
game-over cue (unless muted), a successful spawn yields state Idle with
`gravityTimer = time + delta`; moreover from the initial snapshot
`tick(99, null)` leaves state Spawning and `tick(100, null)` with a
successful spawn yields Idle with `gravityTimer == 100`. -/
theorem C1_spawn_completion {T P R : Type} (ops : Ops T P R) (g : Game T P R)
    (delta : ℤ) (command : Option String)
    (hs : g.state = .spawning) (hp : g.paused = false) :
    (g.time + delta - g.spawnTimer ≥ spawnDelay →
      (∀ t1, ops.spawn g.tetrion = (t1, false) →
        g.tick ops delta command =
          .ok ({ g with time := g.time + delta, tetrion := t1, state := .finished },
            if g.muted then none else some Cue.gameOver)) ∧
      (∀ t1, ops.spawn g.tetrion = (t1, true) →
        g.tick ops delta command =
          .ok ({ g with time := g.time + delta, tetrion := t1, state := .idle, gravityTimer := g.time + delta }, none))) ∧
    (∀ (t0 : T) (p0 : P) (m : Bool),
      Game.tick ops (Game.init m t0 p0) 99 none =
        .ok ({ Game.init m t0 p0 with time := 99 }, none)) ∧
    (∀ (t0 : T) (p0 : P) (m : Bool) (t1 : T), ops.spawn t0 = (t1, true) →
      Game.tick ops (Game.init m t0 p0) 100 none =
        .ok ({ Game.init m t0 p0 with time := 100, tetrion := t1, state := .idle, gravityTimer := 100 }, none)) := by
  refine ⟨fun ht => ⟨fun t1 hsp => ?_, fun t1 hsp => ?_⟩, fun t0 p0 m => ?_,
    fun t0 p0 m t1 hsp => ?_⟩
  · unfold Game.tick
    simp only [hp, hs, hsp, playSound, cueFor]
    simp [ht]
  · unfold Game.tick
    simp only [hp, hs, hsp]
    simp [ht]
  · unfold Game.tick
    simp [Game.init, spawnDelay]
  · unfold Game.tick
    simp [Game.init, spawnDelay, hsp]

/-- An Idle level-1 snapshot at time 0 used to witness the gravity
branch theorems. -/
def gameIdle : Game Unit Unit Unit :=
  { Game.init false () () with state := .idle }

/-- A Locking level-1 snapshot at time 0 used to witness the lock
branch theorems. -/
def gameLock : Game Unit Unit Unit :=
  { Game.init false () () with state := .locking }

theorem C1_witness :
    Game.tick (mkOps true true true true true) (Game.init false () ()) 100 none =
      .ok ({ Game.init false () () with time := 100, tetrion := (), state := .idle, gravityTimer := 100 }, none) :=
  ((C1_spawn_completion (mkOps true true true true true) (Game.init false () ()) 100 none rfl rfl).1
    (by decide)).2 () rfl

/-- C2: from a non-paused Idle snapshot with
`time + delta - gravityTimer >= gravityDelay(level)` the tick asks the
engine to move the falling piece down, emits a "move" cue whether or
not the move succeeded (unless muted), and sets
`gravityTimer = time + delta`; if the engine reports no change the
state becomes Locking with `lockTimer = time + delta`, otherwise the
state stays Idle. -/
theorem C2_gravity {T P R : Type} (ops : Ops T P R) (g : Game T P R)
    (delta : ℤ) (command : Option String)
    (hs : g.state = .idle) (hp : g.paused = false)
    (ht : g.time + delta - g.gravityTimer ≥ gravityDelay (ops.plevel g.progress)) :
    (∀ t1 r1, ops.moveDown g.tetrion = (t1, r1, true) →
      g.tick ops delta command =
        .ok ({ g with time := g.time + delta, tetrion := t1, reward := some r1, state := .idle, gravityTimer := g.time + delta },
          if g.muted then none else some Cue.move)) ∧
    (∀ t1 r1, ops.moveDown g.tetrion = (t1, r1, false) →
      g.tick ops delta command =
        .ok ({ g with time := g.time + delta, tetrion := t1, reward := some r1, state := .locking, gravityTimer := g.time + delta, lockTimer := g.time + delta },
          if g.muted then none else some Cue.move)) := by
  refine ⟨fun t1 r1 hmv => ?_, fun t1 r1 hmv => ?_⟩ <;>
  · unfold Game.tick
    simp only [hp, hs, hmv, playSound, cueFor]
    simp [ht]

theorem C2_witness :
    Game.tick (mkOps true true true true true) gameIdle 1000 none =
      .ok ({ gameIdle with time := 1000, reward := some (), gravityTimer := 1000 }, some Cue.move) :=
  (C2_gravity (mkOps true true true true true) gameIdle 1000 none rfl rfl
    (by norm_num [mkOps, Game.init, gameIdle, gravityDelay_one])).1 () () rfl

/-- C3: from a non-paused Locking snapshot with
`time + delta - lockTimer >= 1000` the tick locks the piece at the
current level, merges the reward into the progress, emits exactly one
cue chosen by priority level-up > clear-line > lock (none when muted),
and moves to Spawning with `spawnTimer = time + delta`. -/
theorem C3_lock_completion {T P R : Type} (ops : Ops T P R) (g : Game T P R)
    (delta : ℤ) (command : Option String)
    (hs : g.state = .locking) (hp : g.paused = false)
    (ht : g.time + delta - g.lockTimer ≥ lockDelay) :
    ∀ t1 r1, ops.lock g.tetrion (ops.plevel g.progress) = (t1, r1) →
      g.tick ops delta command =
        .ok ({ g with time := g.time + delta, tetrion := t1, reward := some r1, progress := ops.padd g.progress r1, state := .spawning, spawnTimer := g.time + delta },
          if g.muted then none
          else if ops.plevel (ops.padd g.progress r1) > ops.plevel g.progress then some Cue.levelUp
          else if ops.rlines r1 > 0 then some Cue.clearLine
          else some Cue.lock) := by
  intro t1 r1 hlk
  unfold Game.tick
  simp only [hp, hs, hlk, playSound, cueFor]
  simp [ht]

theorem C3_witness :
    Game.tick (mkOps true true true true true) gameLock 1000 none =
      .ok ({ gameLock with state := .spawning, time := 1000, reward := some (), spawnTimer := 1000 }, some Cue.lock) :=
  C3_lock_completion (mkOps true true true true true) gameLock 1000 none rfl rfl
    (by decide) () () rfl

/-- C4: from a non-paused Locking snapshot whose lock delay has not yet
elapsed, dispatching a supplied command yields: Spawning with
`spawnTimer = time + delta` when the resulting board has no falling
piece; Idle with `gravityTimer = time + delta` when the resulting board
still has a falling piece that can move down; and an unchanged state
otherwise. -/
theorem C4_command_during_locking {T P R : Type} (ops : Ops T P R) (g : Game T P R)
    (delta : ℤ) (s : String) (c : Command)
    (hs : g.state = .locking) (hp : g.paused = false)
    (ht : ¬(g.time + delta - g.lockTimer ≥ lockDelay))
    (hns : s ≠ "") (hc : parseCommand s = some c) :
    ∀ t1 r1 ch, ops.dispatch c g.tetrion (ops.plevel g.progress) = (t1, r1, ch) →
      (ops.fallingPiece t1 = false →
        g.tick ops delta (some s) =
          .ok ({ g with time := g.time + delta, tetrion := t1, reward := some r1, progress := ops.padd g.progress r1, state := .spawning, spawnTimer := g.time + delta },
            if ch then playSound g.muted (.cmd c) (ops.rlines r1 > 0) (ops.plevel (ops.padd g.progress r1) > ops.plevel g.progress) else none)) ∧
      (ops.fallingPiece t1 = true → ops.canMoveDown t1 = true →
        g.tick ops delta (some s) =
          .ok ({ g with time := g.time + delta, tetrion := t1, reward := some r1, progress := ops.padd g.progress r1, state := .idle, gravityTimer := g.time + delta },
            if ch then playSound g.muted (.cmd c) (ops.rlines r1 > 0) (ops.plevel (ops.padd g.progress r1) > ops.plevel g.progress) else none)) ∧
      (ops.fallingPiece t1 = true → ops.canMoveDown t1 = false →
        g.tick ops delta (some s) =
          .ok ({ g with time := g.time + delta, tetrion := t1, reward := some r1, progress := ops.padd g.progress r1 },
            if ch then playSound g.muted (.cmd c) (ops.rlines r1 > 0) (ops.plevel (ops.padd g.progress r1) > ops.plevel g.progress) else none)) := by
  intro t1 r1 ch hd
  refine ⟨fun hfp => ?_, fun hfp hcm => ?_, fun hfp hcm => ?_⟩ <;>
  · unfold Game.tick
    simp only [hp, hs, hc, hd, truthy]
    simp [ht, hns, hfp, *]

theorem C4_witness :
    Game.tick (mkOps true true true true true) gameLock 1 (some "moveLeft") =
      .ok ({ gameLock with time := 1, reward := some (), state := .idle, gravityTimer := 1 }, some Cue.move) :=
  ((C4_command_during_locking (mkOps true true true true true) gameLock 1 "moveLeft" .moveLeft
    rfl rfl (by decide) (by decide) rfl () () true rfl).2.1 rfl rfl)

/-- C6: Finished is absorbing — from a Finished snapshot every `tick`
(for any delta and command) returns a snapshot whose state is still
Finished, and `pause` and `mute` also leave the state at Finished. -/
theorem C6_finished_absorbing {T P R : Type} (ops : Ops T P R) (g : Game T P R)
    (hs : g.state = .finished) :
    (∀ (delta : ℤ) (command : Option String),
      (g.tick ops delta command).map (fun p => p.1.state) = Except.ok GState.finished) ∧
    (Game.pause g).state = .finished ∧ (Game.mute g).state = .finished := by
  refine ⟨fun delta command => ?_, hs, hs⟩
  by_cases hp : g.paused
  · unfold Game.tick
    simp [hp, hs, Except.map]
  · unfold Game.tick
    simp [hp, hs, Except.map]

theorem C6_witness :
    (Game.tick (mkOps true true true true true) ({ Game.init false () () with state := .finished } : Game Unit Unit Unit) 7 (some "hardDrop")).map (fun p => p.1.state) = Except.ok GState.finished ∧
    (Game.pause ({ Game.init false () () with state := .finished } : Game Unit Unit Unit)).state = .finished :=
  ⟨(C6_finished_absorbing (mkOps true true true true true) _ rfl).1 7 (some "hardDrop"),
    (C6_finished_absorbing (mkOps true true true true true) _ rfl).2.1⟩

/-- C10: from a non-paused Finished snapshot, `tick(delta, command)`
still advances the clock: the result is the same snapshot with `time`
replaced by `time + delta`, every other field unchanged, and no cue
emitted. -/
theorem C10_finished_tick_advances_clock {T P R : Type} (ops : Ops T P R) (g : Game T P R)
    (delta : ℤ) (command : Option String)
    (hs : g.state = .finished) (hp : g.paused = false) :
    g.tick ops delta command = .ok ({ g with time := g.time + delta }, none) := by
  unfold Game.tick
  simp [hp, hs]

theorem C10_witness :
    Game.tick (mkOps true true true true true) ({ Game.init true () () with state := .finished } : Game Unit Unit Unit) 42 (some "hold") =
      .ok ({ ({ Game.init true () () with state := .finished } : Game Unit Unit Unit) with time := 42 }, none) :=
  C10_finished_tick_advances_clock (mkOps true true true true true) _ 42 (some "hold") rfl rfl

/-- C7 (amended): `reward` is null immediately after construction, and
a no-op tick — non-paused, with no branch firing — returns the input
snapshot with only `time` advanced and no cue, so `reward` is left
unchanged (in particular it stays null whenever it was already null). -/
theorem C7_reward_noop_tick {T P R : Type} (ops : Ops T P R) (g : Game T P R)
    (delta : ℤ) (command : Option String)
    (hp : g.paused = false)
    (h1 : ¬(g.state = .spawning ∧ g.time + delta - g.spawnTimer ≥ spawnDelay))
    (h2 : ¬(g.state = .idle ∧ g.time + delta - g.gravityTimer ≥ gravityDelay (ops.plevel g.progress)))
    (h3 : ¬(g.state = .locking ∧ g.time + delta - g.lockTimer ≥ lockDelay))
    (h4 : ¬((g.state = .idle ∨ g.state = .locking) ∧ truthy command = true)) :
    g.tick ops delta command = .ok ({ g with time := g.time + delta }, none) ∧
    (∀ (m : Bool) (t0 : T) (p0 : P), (Game.init m t0 p0 : Game T P R).reward = none) := by
  refine ⟨?_, fun m t0 p0 => rfl⟩
  unfold Game.tick
  simp only [hp]
  rw [if_neg (by simp), if_neg h1, if_neg h2, if_neg h3, if_neg h4]

theorem C7_witness :
    Game.tick (mkOps true true true true true) (Game.init true () ()) 50 none =
      .ok ({ Game.init true () () with time := 50 }, none) ∧
    (Game.init true () () : Game Unit Unit Unit).reward = none :=
  ⟨(C7_reward_noop_tick (mkOps true true true true true) (Game.init true () ()) 50 none rfl
      (by simp [Game.init, spawnDelay]) (by simp [Game.init]) (by simp [Game.init])
      (by simp [Game.init, truthy])).1,
    (C7_reward_noop_tick (mkOps true true true true true) (Game.init true () ()) 50 none rfl
      (by simp [Game.init, spawnDelay]) (by simp [Game.init]) (by simp [Game.init])
      (by simp [Game.init, truthy])).2 true () ()⟩

/-- An Idle snapshot carrying a non-null `reward` left over from an
earlier mutating transition; the next tick is a no-op. -/
def gameStaleReward : Game Unit Unit Unit :=
  { (Game.init false () () : Game Unit Unit Unit) with state := .idle, reward := some () }

/-- C7 counterexample: a no-op tick does not reset `reward` to null —
from an Idle snapshot with `reward = some ()` and `delta = 1` (well
below the level-1 gravity delay of 1000 ms and with no command), the
tick only advances `time`, and the returned snapshot's `reward` is
still `some ()`. -/
theorem C7_counterexample :
    Game.tick (mkOps true true true true true) gameStaleReward 1 none =
      .ok ({ gameStaleReward with time := 1 }, none) ∧
    ({ gameStaleReward with time := 1 } : Game Unit Unit Unit).reward = some () := by
  refine ⟨?_, by simp [gameStaleReward]⟩
  unfold Game.tick
  rw [if_neg (by simp [gameStaleReward, Game.init])]
  rw [if_neg (by simp [gameStaleReward, Game.init])]
  rw [if_neg ?hg, if_neg (by simp [gameStaleReward, Game.init]), if_neg (by simp [truthy])]
  · simp [gameStaleReward, Game.init]
  case hg =>
    simp only [gameStaleReward, Game.init, mkOps, not_and]
    intro _
    simp only [gravityDelay_one]
    norm_num

/-- C8 (amended): `gravityDelay(1) == 1000`, `gravityDelay(2) == 769`,
and `gravityDelay` is weakly decreasing (non-increasing) over integer
levels ≥ 1; strict decrease fails at large levels where consecutive
values round to the same integer. -/
theorem C8_gravity_delay_curve :
    gravityDelay 1 = 1000 ∧ gravityDelay 2 = 769 ∧
    ∀ m n : ℕ, 1 ≤ m → m ≤ n → gravityDelay n ≤ gravityDelay m :=
  ⟨gravityDelay_one, gravityDelay_two, fun _ _ h1 h2 => gravityDelay_antitone h1 h2⟩

theorem C8_witness : gravityDelay 2 ≤ gravityDelay 1 :=
  C8_gravity_delay_curve.2.2 1 2 (by norm_num) (by norm_num)

/-- C8 counterexample: `gravityDelay` is not strictly decreasing — at
levels 1048576 and 1048577 it takes the same value (both round to
-3624). -/
theorem C8_counterexample :
    gravityDelay 1048577 = gravityDelay 1048576 ∧
    ¬gravityDelay 1048577 < gravityDelay 1048576 := by
  rw [gravityDelay_pow20, gravityDelay_pow20_succ]
  omega

/-- C9 (amended): an unrecognized command identifier aborts the call
with a diagnostic only when the command-dispatch branch fires — the
snapshot is Idle or Locking, not paused, and neither the gravity nor
the lock timer threshold has been met; in every other situation the
unrecognized command is silently ignored. -/
theorem C9_unknown_command_aborts_dispatch {T P R : Type} (ops : Ops T P R) (g : Game T P R)
    (delta : ℤ) (s : String)
    (hil : g.state = .idle ∨ g.state = .locking) (hp : g.paused = false)
    (hg : g.state = .idle → g.time + delta - g.gravityTimer < gravityDelay (ops.plevel g.progress))
    (hl : g.state = .locking → g.time + delta - g.lockTimer < lockDelay)
    (hns : s ≠ "") (hpc : parseCommand s = none) :
    g.tick ops delta (some s) = .error "TypeError: unrecognized command" := by
  unfold Game.tick
  simp only [hp]
  rw [if_neg (by simp)]
  rw [if_neg (by rcases hil with h | h <;> simp [h])]
  rcases hil with h | h
  · rw [if_neg (by simp [h]; exact hg h)]
    rw [if_neg (by simp [h])]
    rw [if_pos (by simp [h, truthy, hns])]
    simp [hpc]
  · rw [if_neg (by simp [h])]
    rw [if_neg (by simp [h]; exact hl h)]
    rw [if_pos (by simp [h, truthy, hns])]
    simp [hpc]

theorem C9_witness :
    Game.tick (mkOps true true true true true) gameIdle 1 (some "frobnicate") =
      .error "TypeError: unrecognized command" :=
  C9_unknown_command_aborts_dispatch (mkOps true true true true true) gameIdle 1 "frobnicate"
    (Or.inl rfl) rfl
    (fun _ => by simp only [mkOps, gameIdle, Game.init, gravityDelay_one]; norm_num)
    (fun h => by simp [gameIdle, Game.init] at h)
    (by decide) (by decide)

/-- C9 counterexample: an unrecognized command is not always rejected —
on a paused snapshot `tick(5, "frobnicate")` returns the snapshot
unchanged with no error and no cue, silently ignoring the bogus
command (the same happens whenever the command-dispatch branch does not
fire, e.g. in Spawning or Finished states). -/
theorem C9_counterexample :
    parseCommand "frobnicate" = none ∧
    Game.tick (mkOps true true true true true) (Game.pause (Game.init false () ())) 5 (some "frobnicate") =
      .ok (Game.pause (Game.init false () ()), none) := by
  constructor
  · decide
  · unfold Game.tick
    rw [if_pos (by simp [Game.pause, Game.init])]

end Tetris
